import Mathlib

/-!
Shallow embedding of the file-backed vdev I/O path of the macOS OpenZFS
port, translated from module/os/macos/zfs/vdev_file.c, together with the
zvol block-device read/write entry point from module/os/macos/zfs/zvolIO.cpp.

Host system calls (open, getattr, close, pread, pwrite, fsync, fallocate,
zvol volume read/write) are modelled as oracle functions supplied in a host
structure; every embedded operation additionally returns the list of host
calls it performed, so that the theorems can speak about which host calls
were or were not made.
-/

/-- Errno value EINVAL (invalid argument), as used by SET_ERROR(EINVAL). -/
def EINVAL : Nat := 22

/-- Errno value EIO_errno (input/output error). -/
def EIO_errno : Nat := 5

/-- Errno value ENOSPC (no space left on device). -/
def ENOSPC : Nat := 28

/-- Errno value ENXIO (no such device or address). -/
def ENXIO : Nat := 6

/-- Errno value ENODEV (no such device). -/
def ENODEV : Nat := 19

/-- Errno value ENOTSUP (operation not supported). -/
def ENOTSUP : Nat := 45

/-- Constant SPA_MINBLOCKSHIFT: the fixed sector shift, 2 to the 9 = 512 bytes. -/
def SPA_MINBLOCKSHIFT : Nat := 9

/-- Open-mode flag O_RDONLY. -/
def O_RDONLY : Nat := 0

/-- Open-mode flag O_WRONLY. -/
def O_WRONLY : Nat := 1

/-- Open-mode flag O_RDWR. -/
def O_RDWR : Nat := 2

/-- Open-mode flag O_LARGEFILE; defined to 0 in include/os/macos/spl/sys/fcntl.h. -/
def O_LARGEFILE : Nat := 0

/-- The kind of a zio request, from the zio_type values used by vdev_file.c. -/
inductive ZioType
  | read
  | write
  | ioctl
  | trim
deriving DecidableEq, Repr

/-- The ioctl sub-command of a zio: either the recognized flush-write-cache
command DKIOCFLUSHWRITECACHE, or any other command code. -/
inductive IoCmd
  | flushWriteCache
  | otherCmd (code : Nat)
deriving DecidableEq, Repr

/-- The fields of a zio request that the file vdev code reads or writes:
io_type, io_offset, io_size, io_cmd and io_error. -/
structure Zio where
  ioType : ZioType
  ioOffset : Nat
  ioSize : Nat
  ioCmd : IoCmd
  ioError : Nat
deriving DecidableEq, Repr

/-- One host system call performed by the embedded code. -/
inductive HostCall
  | openCall (path : String) (flags : Nat)
  | getattrCall (fp : Nat)
  | closeCall (fp : Nat)
  | preadCall (size off : Nat)
  | pwriteCall (size off : Nat)
  | fsyncCall
  | fallocateCall (off len : Nat)
deriving DecidableEq, Repr

/-- Host oracle for vdev_file_io_strategy: zfs_file_pread and zfs_file_pwrite,
each mapping (size, offset) to the pair (error code, residual byte count). -/
structure IoHost where
  pread : Nat → Nat → Nat × Nat
  pwrite : Nat → Nat → Nat × Nat

/-- Result of vdev_file_io_strategy: the updated zio, the host calls made,
and whether zio_delay_interrupt (the completion signal) was invoked. -/
structure StrategyResult where
  zio : Zio
  calls : List HostCall
  completed : Bool
deriving Repr

/-- Error mapping of vdev_file_io_strategy lines 206 to 209:
io_error is EIO_errno when the host call failed, else ENOSPC when the residual
count is nonzero, else 0. -/
def zioErrorOf (err resid : Nat) : Nat :=
  let e := if err ≠ 0 then EIO_errno else 0
  if e = 0 ∧ resid ≠ 0 then ENOSPC else e

/-- Embedding of vdev_file_io_strategy: a read-type zio performs
zfs_file_pread, any other performs zfs_file_pwrite; the error is mapped by
zioErrorOf and zio_delay_interrupt is then invoked unconditionally. -/
def vdev_file_io_strategy (host : IoHost) (zio : Zio) : StrategyResult :=
  match zio.ioType with
  | ZioType.read =>
      let r := host.pread zio.ioSize zio.ioOffset
      ⟨{ zio with ioError := zioErrorOf r.1 r.2 },
       [HostCall.preadCall zio.ioSize zio.ioOffset], true⟩
  | _ =>
      let r := host.pwrite zio.ioSize zio.ioOffset
      ⟨{ zio with ioError := zioErrorOf r.1 r.2 },
       [HostCall.pwriteCall zio.ioSize zio.ioOffset], true⟩

/-- Host oracle for vdev_file_io_start: the result of zfs_file_fsync with
O_SYNC and O_DSYNC, and zfs_file_fallocate as a function of offset and length. -/
structure StartHost where
  fsync : Nat
  fallocate : Nat → Nat → Nat

/-- How vdev_file_io_start disposed of a zio: io_error set and zio_interrupt
called; io_error set and zio_execute called (synchronous completion);
dispatched to the vdev_file_taskq worker pool; or an ASSERT tripped
(fatal precondition violation, debug-build semantics). -/
inductive StartOutcome
  | interrupted (e : Nat)
  | executedSync (e : Nat)
  | dispatched
  | assertFailed
deriving DecidableEq, Repr

/-- Embedding of vdev_file_io_start. The readable flag is the value of
vdev_readable(vd). Ioctl zios are checked for readability and answered
synchronously (flush via fsync, anything else ENOTSUP); trim zios assert a
nonzero size and call fallocate synchronously; read and write zios are
dispatched to the taskq. -/
def vdev_file_io_start (readable : Bool) (host : StartHost) (zio : Zio) :
    StartOutcome × List HostCall :=
  match zio.ioType with
  | ZioType.ioctl =>
      if ¬ readable then (StartOutcome.interrupted ENXIO, [])
      else
        match zio.ioCmd with
        | IoCmd.flushWriteCache =>
            (StartOutcome.executedSync host.fsync, [HostCall.fsyncCall])
        | IoCmd.otherCmd _ => (StartOutcome.executedSync ENOTSUP, [])
  | ZioType.trim =>
      if zio.ioSize = 0 then (StartOutcome.assertFailed, [])
      else
        (StartOutcome.executedSync (host.fallocate zio.ioOffset zio.ioSize),
         [HostCall.fallocateCall zio.ioOffset zio.ioSize])
  | _ => (StartOutcome.dispatched, [])

/-- The zfs_file_attr_t fields the vdev file code uses: zfa_size. -/
structure ZfsFileAttr where
  zfa_size : Nat
deriving DecidableEq, Repr

/-- Host oracle for vdev_file_open: zfs_file_open mapping (path, flags) to an
error or a file handle, and zfs_file_getattr mapping a file handle to an error
or the attributes. -/
structure FileHost where
  fileOpen : String → Nat → Except Nat Nat
  getattr : Nat → Except Nat ZfsFileAttr

/-- The vdev_file_t per-device struct: its (possibly null) open file handle. -/
structure VdevFileT where
  vf_file : Option Nat
deriving DecidableEq, Repr

/-- The vdev_stat vs_aux values set by vdev_file_open. -/
inductive VdevAux
  | auxNone
  | badLabel
  | openFailed
deriving DecidableEq, Repr

/-- The vdev_t fields that vdev_file_open and vdev_file_close read or write:
vdev_path, vdev_tsd, vdev_reopening, vdev_delayed_close and vs_aux. -/
structure VdevState where
  vdev_path : Option String
  vdev_tsd : Option VdevFileT
  vdev_reopening : Bool
  vdev_delayed_close : Bool
  vs_aux : VdevAux
deriving DecidableEq, Repr

/-- The absoluteness test of vdev_file_open line 105: the path pointer must be
non-null and its first character must be the root separator. An empty string
fails because its first character is the terminating NUL, not a slash. -/
def pathIsAbsolute : Option String → Bool
  | none => false
  | some s =>
      match s.data with
      | [] => false
      | c :: _ => c == '/'

/-- Embedding of vdev_file_open_mode: both read and write give O_RDWR, read
alone O_RDONLY, write alone O_WRONLY, neither 0; O_LARGEFILE is or-ed in. -/
def vdev_file_open_mode (readMode writeMode : Bool) : Nat :=
  (if readMode ∧ writeMode then O_RDWR
   else if readMode then O_RDONLY
   else if writeMode then O_WRONLY
   else 0) ||| O_LARGEFILE

/-- The outputs written through the psize, max_psize, ashift and
physical_ashift pointers on a successful vdev_file_open. -/
structure OpenOut where
  psize : Nat
  max_psize : Nat
  ashift : Nat
  physical_ashift : Nat
deriving DecidableEq, Repr

/-- Result status of vdev_file_open: success with the four outputs, failure
with an errno, or a tripped ASSERT (including the null-handle dereference on
a reopen whose vdev_file_t has no open file, which cannot occur in the
modelled lifecycle). -/
inductive OpenStatus
  | ok (out : OpenOut)
  | failed (e : Nat)
  | assertFailed
deriving DecidableEq, Repr

/-- Embedding of vdev_file_open (kernel variant). Returns the status, the
updated vdev state and the host calls made. A non-absolute path fails with
EINVAL before any host call; with vdev_tsd already set the open is a reopen
(ASSERT vdev_reopening) that only refreshes the size; otherwise a fresh
vdev_file_t is allocated, the file opened, checked to be a regular file
(any getattr failure there becomes ENODEV), and then at skip_open the size
is read again and reported together with the fixed SPA_MINBLOCKSHIFT. -/
def vdev_file_open (host : FileHost) (readMode writeMode : Bool)
    (vd : VdevState) : OpenStatus × VdevState × List HostCall :=
  if ¬ pathIsAbsolute vd.vdev_path then
    (OpenStatus.failed EINVAL, { vd with vs_aux := VdevAux.badLabel }, [])
  else
    match vd.vdev_tsd with
    | some vf =>
        if ¬ vd.vdev_reopening then (OpenStatus.assertFailed, vd, [])
        else
          match vf.vf_file with
          | none => (OpenStatus.assertFailed, vd, [])
          | some fp =>
              match host.getattr fp with
              | Except.error e =>
                  (OpenStatus.failed e,
                   { vd with vs_aux := VdevAux.openFailed },
                   [HostCall.getattrCall fp])
              | Except.ok zfa =>
                  (OpenStatus.ok
                     ⟨zfa.zfa_size, zfa.zfa_size,
                      SPA_MINBLOCKSHIFT, SPA_MINBLOCKSHIFT⟩,
                   vd, [HostCall.getattrCall fp])
    | none =>
        match vd.vdev_path with
        | none => (OpenStatus.failed EINVAL, vd, [])
        | some p =>
            let mode := vdev_file_open_mode readMode writeMode
            match host.fileOpen p mode with
            | Except.error e =>
                (OpenStatus.failed e,
                 { vd with vdev_tsd := some ⟨none⟩,
                           vs_aux := VdevAux.openFailed },
                 [HostCall.openCall p mode])
            | Except.ok fp =>
                let vd2 := { vd with vdev_tsd := some ⟨some fp⟩ }
                match host.getattr fp with
                | Except.error _ =>
                    (OpenStatus.failed ENODEV, vd2,
                     [HostCall.openCall p mode, HostCall.getattrCall fp])
                | Except.ok _ =>
                    match host.getattr fp with
                    | Except.error e =>
                        (OpenStatus.failed e,
                         { vd2 with vs_aux := VdevAux.openFailed },
                         [HostCall.openCall p mode, HostCall.getattrCall fp,
                          HostCall.getattrCall fp])
                    | Except.ok zfa =>
                        (OpenStatus.ok
                           ⟨zfa.zfa_size, zfa.zfa_size,
                            SPA_MINBLOCKSHIFT, SPA_MINBLOCKSHIFT⟩,
                         vd2,
                         [HostCall.openCall p mode, HostCall.getattrCall fp,
                          HostCall.getattrCall fp])

/-- Embedding of vdev_file_close: a close during a reopen, or with no
vdev_file_t allocated, does nothing; otherwise the open file handle is
released if present, vdev_delayed_close is cleared, the struct is freed and
vdev_tsd is set to null. -/
def vdev_file_close (vd : VdevState) : VdevState × List HostCall :=
  match vd.vdev_tsd with
  | none => (vd, [])
  | some vf =>
      if vd.vdev_reopening then (vd, [])
      else
        ({ vd with vdev_delayed_close := false, vdev_tsd := none },
         match vf.vf_file with
         | some fp => [HostCall.closeCall fp]
         | none => [])

/-- Constant DEV_BSIZE: the 512-byte device block size. -/
def DEV_BSIZE : Nat := 512

/-- Constant ZVOL_BSIZE, defined to DEV_BSIZE in zvolIO.cpp line 52. -/
def ZVOL_BSIZE : Nat := DEV_BSIZE

/-- Reduction of an unsigned 64-bit machine value: UInt64 arithmetic in the
C source is modelled as Nat arithmetic followed by this reduction. -/
def w64 (n : Nat) : Nat := n % 2 ^ 64

/-- The IOKit transfer directions returned by getDirection. -/
inductive IODirection
  | dirNone
  | dirIn
  | dirOut
  | dirInOut
deriving DecidableEq, Repr

/-- The IOReturn codes produced by doAsyncReadWrite: kIOReturnSuccess,
kIOReturnNotAttached and kIOReturnBadArgument. -/
inductive IOReturnCode
  | success
  | notAttached
  | badArgument
deriving DecidableEq, Repr

/-- The zvol device state read by doAsyncReadWrite: whether the IOKit object
is inactive (terminated), whether zv_dn (the zvol dnode) is set, and the
volume size zv_volsize in bytes. -/
structure ZvolState where
  isInactive : Bool
  hasDnode : Bool
  zv_volsize : Nat
deriving DecidableEq, Repr

/-- Host oracle for doAsyncReadWrite: zvol_os_read_zv and zvol_os_write_zv,
each mapping (byte offset, byte count) to an error code (0 on success). -/
structure ZvolHost where
  readZv : Nat → Nat → Nat
  writeZv : Nat → Nat → Nat

/-- One volume-level I/O call performed by doAsyncReadWrite. -/
inductive VolCall
  | readCall (off len : Nat)
  | writeCall (off len : Nat)
deriving DecidableEq, Repr

/-- Result of doAsyncReadWrite: the IOReturn value of the method, the list of
(status, actualByteCount) pairs passed to the completion action, and the
volume read/write calls performed. -/
structure AsyncRWResult where
  ret : IOReturnCode
  completions : List (IOReturnCode × Nat)
  volCalls : List VolCall
deriving DecidableEq, Repr

/-- Embedding of net_lundman_zfs_zvol_device doAsyncReadWrite. An inactive
device or a missing dnode returns kIOReturnNotAttached; a start block at or
past the volume size, an end past the volume size, or a direction other than
in or out returns kIOReturnBadArgument, all before any volume call. Otherwise
the volume read or write runs, a failure zeroes actualByteCount, and the
completion action is invoked once with kIOReturnSuccess and that count; the
method itself returns kIOReturnSuccess. -/
def doAsyncReadWrite (st : ZvolState) (host : ZvolHost) (dir : IODirection)
    (block nblks : Nat) : AsyncRWResult :=
  if st.isInactive then ⟨IOReturnCode.notAttached, [], []⟩
  else if ¬ st.hasDnode then ⟨IOReturnCode.notAttached, [], []⟩
  else if st.zv_volsize ≤ w64 (block * ZVOL_BSIZE) then
    ⟨IOReturnCode.badArgument, [], []⟩
  else if st.zv_volsize < w64 ((block + nblks) * ZVOL_BSIZE) then
    ⟨IOReturnCode.badArgument, [], []⟩
  else if dir ≠ IODirection.dirIn ∧ dir ≠ IODirection.dirOut then
    ⟨IOReturnCode.badArgument, [], []⟩
  else
    let off := w64 (block * ZVOL_BSIZE)
    let len := w64 (nblks * ZVOL_BSIZE)
    if dir = IODirection.dirIn then
      let e := host.readZv off len
      let actual := if e ≠ 0 then 0 else len
      ⟨IOReturnCode.success, [(IOReturnCode.success, actual)],
       [VolCall.readCall off len]⟩
    else
      let e := host.writeZv off len
      let actual := if e ≠ 0 then 0 else len
      ⟨IOReturnCode.success, [(IOReturnCode.success, actual)],
       [VolCall.writeCall off len]⟩

/-- The host (error, residual) pair that vdev_file_io_strategy consumes:
pread for a read-type zio, pwrite otherwise. -/
def strategyHostResult (host : IoHost) (zio : Zio) : Nat × Nat :=
  if zio.ioType = ZioType.read then host.pread zio.ioSize zio.ioOffset
  else host.pwrite zio.ioSize zio.ioOffset

/-- Closed form of the strategy error mapping. -/
theorem zioErrorOf_eq (err resid : Nat) :
    zioErrorOf err resid =
      if err ≠ 0 then EIO_errno else if resid ≠ 0 then ENOSPC else 0 := by
  by_cases he : err = 0 <;> by_cases hr : resid = 0 <;>
    simp [zioErrorOf, he, hr, EIO_errno, ENOSPC]

/-- Closed form of vdev_file_io_strategy in terms of strategyHostResult. -/
theorem strategy_result_eq (host : IoHost) (zio : Zio) :
    vdev_file_io_strategy host zio =
      ⟨{ zio with ioError := zioErrorOf (strategyHostResult host zio).1
                               (strategyHostResult host zio).2 },
       [if zio.ioType = ZioType.read
        then HostCall.preadCall zio.ioSize zio.ioOffset
        else HostCall.pwriteCall zio.ioSize zio.ioOffset], true⟩ := by
  obtain ⟨ty, off, sz, cmd, er⟩ := zio
  cases ty <;> simp [vdev_file_io_strategy, strategyHostResult]

/-- Concrete host whose write path fails with host error 7. -/
def ioHostWriteFail : IoHost := ⟨fun _ _ => (0, 0), fun _ _ => (7, 0)⟩

/-- Concrete write zio of 4096 bytes at offset 0. -/
def zioWrite4096 : Zio := ⟨ZioType.write, 0, 4096, IoCmd.otherCmd 0, 0⟩

/-- Concrete host whose read path succeeds but leaves a residual of 512 bytes. -/
def ioHostShortRead : IoHost := ⟨fun _ _ => (0, 512), fun _ _ => (0, 0)⟩

/-- Concrete read zio of 4096 bytes at offset 0. -/
def zioRead4096 : Zio := ⟨ZioType.read, 0, 4096, IoCmd.otherCmd 0, 0⟩

/-- Claim C2: for every request executed by vdev_file_io_strategy, a nonzero
host error yields io_error EIO, a clean host call with nonzero residual yields
io_error ENOSPC, a clean host call with zero residual yields io_error 0, and
the completion signal zio_delay_interrupt is then invoked. -/
theorem vdev_file_io_strategy_error_mapping
    (host : IoHost) (zio : Zio) (err resid : Nat)
    (hrw : strategyHostResult host zio = (err, resid)) :
    ((err ≠ 0 →
        (vdev_file_io_strategy host zio).zio.ioError = EIO_errno) ∧
     (err = 0 → resid ≠ 0 →
        (vdev_file_io_strategy host zio).zio.ioError = ENOSPC) ∧
     (err = 0 → resid = 0 →
        (vdev_file_io_strategy host zio).zio.ioError = 0)) ∧
    (vdev_file_io_strategy host zio).completed = true := by
  rw [strategy_result_eq]
  refine ⟨⟨fun h1 => ?_, fun h1 h2 => ?_, fun h1 h2 => ?_⟩, rfl⟩ <;>
    simp [hrw, zioErrorOf_eq, h1]
  · simp [h2]
  · simp [h2]

/-- Witness for claim C2 at a concrete failing write. -/
theorem vdev_file_io_strategy_error_mapping_witness :
    ((7 ≠ 0 →
        (vdev_file_io_strategy ioHostWriteFail zioWrite4096).zio.ioError =
          EIO_errno) ∧
     (7 = 0 → 0 ≠ 0 →
        (vdev_file_io_strategy ioHostWriteFail zioWrite4096).zio.ioError =
          ENOSPC) ∧
     (7 = 0 → 0 = 0 →
        (vdev_file_io_strategy ioHostWriteFail zioWrite4096).zio.ioError =
          0)) ∧
    (vdev_file_io_strategy ioHostWriteFail zioWrite4096).completed = true :=
  vdev_file_io_strategy_error_mapping ioHostWriteFail zioWrite4096 7 0 rfl

/-- Counterexample to claim C3: a read of 4096 bytes whose host pread succeeds
with residual 512 has its io_error promoted to ENOSPC rather than being left
as a non-error residual count. -/
theorem read_short_transfer_not_residual :
    (vdev_file_io_strategy ioHostShortRead zioRead4096).zio.ioError = ENOSPC ∧
    ENOSPC ≠ 0 :=
  ⟨rfl, by decide⟩

/-- Claim C3 (amended): a transfer shorter than requested with no host error
is promoted to ENOSPC on the read path exactly as on the write path. -/
theorem short_transfer_enospc_on_reads
    (host : IoHost) (zio : Zio) (err resid : Nat)
    (hrw : strategyHostResult host zio = (err, resid))
    (herr : err = 0) (hres : resid ≠ 0) :
    (vdev_file_io_strategy host zio).zio.ioError = ENOSPC := by
  rw [strategy_result_eq]
  simp [hrw, zioErrorOf_eq, herr, hres]

/-- Witness for amended claim C3 at a concrete short read. -/
theorem short_transfer_enospc_on_reads_witness :
    (vdev_file_io_strategy ioHostShortRead zioRead4096).zio.ioError = ENOSPC :=
  short_transfer_enospc_on_reads ioHostShortRead zioRead4096 0 512 rfl rfl
    (by decide)

/-- Concrete start host: fsync succeeds, fallocate succeeds. -/
def startHostZero : StartHost := ⟨0, fun _ _ => 0⟩

/-- Concrete ioctl zio carrying the flush-write-cache sub-command. -/
def zioIoctlFlush : Zio := ⟨ZioType.ioctl, 0, 0, IoCmd.flushWriteCache, 0⟩

/-- Concrete zero-length trim zio at offset 0. -/
def zioTrimZero : Zio := ⟨ZioType.trim, 0, 0, IoCmd.otherCmd 0, 0⟩

/-- Counterexample to claim C4: a read request arriving while the device is
not readable is still handed to the dispatch queue instead of being rejected
with ENXIO. -/
theorem unreadable_read_still_dispatched :
    (vdev_file_io_start false startHostZero zioRead4096).1 =
      StartOutcome.dispatched ∧
    StartOutcome.dispatched ≠ StartOutcome.interrupted ENXIO :=
  ⟨rfl, by decide⟩

/-- Claim C4 (amended): only ioctl-kind requests are validated against device
readability. An ioctl arriving while the device is not readable is rejected
immediately with ENXIO via zio_interrupt and makes no host call; read and
write requests are dispatched to the queue regardless of readability; trim
requests behave identically on an unreadable and on a readable device. -/
theorem unreadable_rejection_only_for_ioctl
    (host : StartHost) (zio : Zio) :
    (zio.ioType = ZioType.ioctl →
       (vdev_file_io_start false host zio).1 =
         StartOutcome.interrupted ENXIO ∧
       (vdev_file_io_start false host zio).2 = []) ∧
    (zio.ioType = ZioType.read ∨ zio.ioType = ZioType.write →
       (vdev_file_io_start false host zio).1 = StartOutcome.dispatched) ∧
    (zio.ioType = ZioType.trim →
       vdev_file_io_start false host zio =
         vdev_file_io_start true host zio) := by
  obtain ⟨ty, off, sz, cmd, er⟩ := zio
  cases ty <;> simp [vdev_file_io_start]

/-- Witness for amended claim C4 at a concrete ioctl request. -/
theorem unreadable_rejection_only_for_ioctl_witness :
    (zioIoctlFlush.ioType = ZioType.ioctl →
       (vdev_file_io_start false startHostZero zioIoctlFlush).1 =
         StartOutcome.interrupted ENXIO ∧
       (vdev_file_io_start false startHostZero zioIoctlFlush).2 = []) ∧
    (zioIoctlFlush.ioType = ZioType.read ∨
       zioIoctlFlush.ioType = ZioType.write →
       (vdev_file_io_start false startHostZero zioIoctlFlush).1 =
         StartOutcome.dispatched) ∧
    (zioIoctlFlush.ioType = ZioType.trim →
       vdev_file_io_start false startHostZero zioIoctlFlush =
         vdev_file_io_start true startHostZero zioIoctlFlush) :=
  unreadable_rejection_only_for_ioctl startHostZero zioIoctlFlush

/-- Claim C5: an ioctl request on a readable device completes synchronously
via zio_execute, never dispatched to the worker pool: the flush-write-cache
sub-command returns the host fsync result, any other sub-command returns
ENOTSUP with no host call. -/
theorem ioctl_flush_or_notsup
    (host : StartHost) (zio : Zio) (hty : zio.ioType = ZioType.ioctl) :
    (zio.ioCmd = IoCmd.flushWriteCache →
       vdev_file_io_start true host zio =
         (StartOutcome.executedSync host.fsync, [HostCall.fsyncCall])) ∧
    (∀ c, zio.ioCmd = IoCmd.otherCmd c →
       vdev_file_io_start true host zio =
         (StartOutcome.executedSync ENOTSUP, [])) := by
  obtain ⟨ty, off, sz, cmd, er⟩ := zio
  replace hty : ty = ZioType.ioctl := hty
  subst hty
  cases cmd <;> simp [vdev_file_io_start]

/-- Witness for claim C5 at a concrete flush ioctl. -/
theorem ioctl_flush_or_notsup_witness :
    (zioIoctlFlush.ioCmd = IoCmd.flushWriteCache →
       vdev_file_io_start true startHostZero zioIoctlFlush =
         (StartOutcome.executedSync startHostZero.fsync,
          [HostCall.fsyncCall])) ∧
    (∀ c, zioIoctlFlush.ioCmd = IoCmd.otherCmd c →
       vdev_file_io_start true startHostZero zioIoctlFlush =
         (StartOutcome.executedSync ENOTSUP, [])) :=
  ioctl_flush_or_notsup startHostZero zioIoctlFlush rfl

/-- Claim C8: a zero-length trim trips the fatal nonzero-size precondition
before any host call is issued, so every trim that reaches the fallocate
call has nonzero length. -/
theorem trim_zero_length_precondition
    (readable : Bool) (host : StartHost) (zio : Zio)
    (hty : zio.ioType = ZioType.trim) :
    (zio.ioSize = 0 →
       (vdev_file_io_start readable host zio).1 = StartOutcome.assertFailed ∧
       (vdev_file_io_start readable host zio).2 = []) ∧
    (zio.ioSize ≠ 0 →
       (vdev_file_io_start readable host zio).2 =
         [HostCall.fallocateCall zio.ioOffset zio.ioSize]) := by
  obtain ⟨ty, off, sz, cmd, er⟩ := zio
  replace hty : ty = ZioType.trim := hty
  subst hty
  constructor
  · intro h
    replace h : sz = 0 := h
    simp [vdev_file_io_start, h]
  · intro h
    replace h : sz ≠ 0 := h
    simp [vdev_file_io_start, h]

/-- Witness for claim C8 at a concrete zero-length trim. -/
theorem trim_zero_length_precondition_witness :
    (zioTrimZero.ioSize = 0 →
       (vdev_file_io_start true startHostZero zioTrimZero).1 =
         StartOutcome.assertFailed ∧
       (vdev_file_io_start true startHostZero zioTrimZero).2 = []) ∧
    (zioTrimZero.ioSize ≠ 0 →
       (vdev_file_io_start true startHostZero zioTrimZero).2 =
         [HostCall.fallocateCall zioTrimZero.ioOffset zioTrimZero.ioSize]) :=
  trim_zero_length_precondition true startHostZero zioTrimZero rfl

/-- Concrete file host: opening any path yields handle 1, and attributes
report a size of 1048576 bytes. -/
def fileHostMeg : FileHost :=
  ⟨fun _ _ => Except.ok 1, fun _ => Except.ok ⟨1048576⟩⟩

/-- Concrete device state with a relative path and nothing open. -/
def vdRelPath : VdevState :=
  ⟨some "tank/file", none, false, false, VdevAux.auxNone⟩

/-- Concrete device state with an absolute path and nothing open. -/
def vdAbsPath : VdevState :=
  ⟨some "/tank/file", none, false, false, VdevAux.auxNone⟩

/-- Concrete device state mid-reopen with file handle 3 open. -/
def vdMidReopen : VdevState :=
  ⟨some "/tank/file", some ⟨some 3⟩, true, false, VdevAux.auxNone⟩

/-- Claim C6: an open with a missing or non-absolute path (including the
empty string) fails with EINVAL and performs no host call at all. -/
theorem open_bad_path_einval
    (host : FileHost) (rm wm : Bool) (vd : VdevState)
    (hpath : pathIsAbsolute vd.vdev_path = false) :
    (vdev_file_open host rm wm vd).1 = OpenStatus.failed EINVAL ∧
    (vdev_file_open host rm wm vd).2.2 = [] := by
  simp [vdev_file_open, hpath]

/-- Witness for claim C6 at a concrete relative path. -/
theorem open_bad_path_einval_witness :
    (vdev_file_open fileHostMeg true true vdRelPath).1 =
      OpenStatus.failed EINVAL ∧
    (vdev_file_open fileHostMeg true true vdRelPath).2.2 = [] :=
  open_bad_path_einval fileHostMeg true true vdRelPath (by decide)

/-- Claim C7: a fresh open of a valid absolute path where the host open and
getattr calls succeed returns success and reports psize and max_psize equal
to the file size and both shift outputs equal to SPA_MINBLOCKSHIFT. -/
theorem open_success_reports_size
    (host : FileHost) (rm wm : Bool) (vd : VdevState) (p : String)
    (fp : Nat) (zfa : ZfsFileAttr)
    (hpath : vd.vdev_path = some p)
    (habs : pathIsAbsolute (some p) = true)
    (htsd : vd.vdev_tsd = none)
    (hopen : host.fileOpen p (vdev_file_open_mode rm wm) = Except.ok fp)
    (hattr : host.getattr fp = Except.ok zfa) :
    (vdev_file_open host rm wm vd).1 =
      OpenStatus.ok ⟨zfa.zfa_size, zfa.zfa_size,
                     SPA_MINBLOCKSHIFT, SPA_MINBLOCKSHIFT⟩ := by
  simp [vdev_file_open, hpath, habs, htsd, hopen, hattr]

/-- Witness for claim C7 at a concrete absolute path and 1 MiB file. -/
theorem open_success_reports_size_witness :
    (vdev_file_open fileHostMeg true true vdAbsPath).1 =
      OpenStatus.ok ⟨1048576, 1048576,
                     SPA_MINBLOCKSHIFT, SPA_MINBLOCKSHIFT⟩ :=
  open_success_reports_size fileHostMeg true true vdAbsPath "/tank/file" 1
    ⟨1048576⟩ rfl (by decide) rfl rfl rfl

/-- Claim C9: a close during a reopen, or with no handle struct, changes
nothing and releases nothing; any other close releases the open file handle
if present and clears vdev_tsd; and after a close during a reopen the device
can still be closed terminally, releasing the handle. -/
theorem close_reopen_idempotent
    (vd : VdevState) :
    ((vd.vdev_reopening = true ∨ vd.vdev_tsd = none) →
       vdev_file_close vd = (vd, [])) ∧
    (∀ vf, vd.vdev_reopening = false → vd.vdev_tsd = some vf →
       (vdev_file_close vd).1.vdev_tsd = none ∧
       (vdev_file_close vd).2 =
         (match vf.vf_file with
          | some fp => [HostCall.closeCall fp]
          | none => [])) ∧
    (∀ fp, vd.vdev_reopening = true → vd.vdev_tsd = some ⟨some fp⟩ →
       (vdev_file_close
          { (vdev_file_close vd).1 with vdev_reopening := false }).2 =
         [HostCall.closeCall fp]) := by
  obtain ⟨pa, tsd, rp, dc, aux⟩ := vd
  refine ⟨?_, ?_, ?_⟩
  · rintro (h | h)
    · replace h : rp = true := h
      subst h
      cases tsd <;> simp [vdev_file_close]
    · replace h : tsd = none := h
      subst h
      simp [vdev_file_close]
  · rintro vf h1 h2
    replace h1 : rp = false := h1
    replace h2 : tsd = some vf := h2
    subst h1
    subst h2
    obtain ⟨vfile⟩ := vf
    cases vfile <;> simp [vdev_file_close]
  · rintro fp h1 h2
    replace h1 : rp = true := h1
    replace h2 : tsd = some ⟨some fp⟩ := h2
    subst h1
    subst h2
    simp [vdev_file_close]

/-- Witness for claim C9 at a concrete mid-reopen device. -/
theorem close_reopen_idempotent_witness :
    ((vdMidReopen.vdev_reopening = true ∨ vdMidReopen.vdev_tsd = none) →
       vdev_file_close vdMidReopen = (vdMidReopen, [])) ∧
    (∀ vf, vdMidReopen.vdev_reopening = false →
       vdMidReopen.vdev_tsd = some vf →
       (vdev_file_close vdMidReopen).1.vdev_tsd = none ∧
       (vdev_file_close vdMidReopen).2 =
         (match vf.vf_file with
          | some fp => [HostCall.closeCall fp]
          | none => [])) ∧
    (∀ fp, vdMidReopen.vdev_reopening = true →
       vdMidReopen.vdev_tsd = some ⟨some fp⟩ →
       (vdev_file_close
          { (vdev_file_close vdMidReopen).1 with
              vdev_reopening := false }).2 =
         [HostCall.closeCall fp]) :=
  close_reopen_idempotent vdMidReopen

/-- Reduction of w64 on values below 2 to the 64. -/
theorem w64_eq_of_lt {n : Nat} (h : n < 2 ^ 64) : w64 n = n :=
  Nat.mod_eq_of_lt h

/-- Concrete zvol host whose volume reads and writes all succeed. -/
def zvolHostOk : ZvolHost := ⟨fun _ _ => 0, fun _ _ => 0⟩

/-- Concrete zvol host whose volume reads fail with error 5. -/
def zvolHostReadFail : ZvolHost := ⟨fun _ _ => 5, fun _ _ => 0⟩

/-- Concrete zvol device state: active, dnode present, 1024-byte volume. -/
def zvSmall : ZvolState := ⟨false, true, 1024⟩

/-- Concrete zvol device state: active, dnode present, 1 MiB volume. -/
def zvMeg : ZvolState := ⟨false, true, 1048576⟩

/-- Counterexample to claim C1 as stated: a read of 2 to the 55 blocks at
block 0 on a 1024-byte volume exceeds the volume size mathematically, but
the 64-bit product (0 + 2 to the 55) * 512 wraps to 0 in UInt64, so the
request passes both range checks, returns kIOReturnSuccess and performs a
volume read call instead of being rejected. -/
theorem overflowing_range_not_rejected :
    1024 < (0 + 2 ^ 55) * 512 ∧
    (doAsyncReadWrite zvSmall zvolHostOk IODirection.dirIn 0 (2 ^ 55)).ret =
      IOReturnCode.success ∧
    (doAsyncReadWrite zvSmall zvolHostOk IODirection.dirIn 0
       (2 ^ 55)).volCalls = [VolCall.readCall 0 0] := by
  refine ⟨by norm_num, ?_, ?_⟩ <;> decide

/-- Claim C1 (amended): a read/write request on a live device whose byte
range exceeds the volume size (start offset at or past the size, or end past
it) and whose byte-range product does not overflow 64-bit arithmetic is
rejected with kIOReturnBadArgument before any volume call and before any
completion callback; it is never shortened to fit. Requests whose products
overflow UInt64 can wrap past the checks and be accepted. -/
theorem doAsyncReadWrite_rejects_out_of_range
    (st : ZvolState) (host : ZvolHost) (dir : IODirection) (block nblks : Nat)
    (hactive : st.isInactive = false) (hdn : st.hasDnode = true)
    (hfit : (block + nblks) * ZVOL_BSIZE < 2 ^ 64)
    (hrange : st.zv_volsize ≤ block * ZVOL_BSIZE ∨
              st.zv_volsize < (block + nblks) * ZVOL_BSIZE) :
    (doAsyncReadWrite st host dir block nblks).ret =
      IOReturnCode.badArgument ∧
    (doAsyncReadWrite st host dir block nblks).volCalls = [] ∧
    (doAsyncReadWrite st host dir block nblks).completions = [] := by
  have hb : block * ZVOL_BSIZE < 2 ^ 64 :=
    lt_of_le_of_lt
      (Nat.mul_le_mul (Nat.le_add_right block nblks) (le_refl ZVOL_BSIZE))
      hfit
  by_cases h1 : st.zv_volsize ≤ block * ZVOL_BSIZE
  · simp [doAsyncReadWrite, hactive, hdn, w64_eq_of_lt hb, h1]
  · have h2 : st.zv_volsize < (block + nblks) * ZVOL_BSIZE :=
      hrange.resolve_left h1
    simp [doAsyncReadWrite, hactive, hdn, w64_eq_of_lt hb,
          w64_eq_of_lt hfit, h1, h2]

/-- Witness for claim C1: a one-block read starting at the end of a
1024-byte volume is rejected. -/
theorem doAsyncReadWrite_rejects_out_of_range_witness :
    (doAsyncReadWrite zvSmall zvolHostOk IODirection.dirIn 2 1).ret =
      IOReturnCode.badArgument ∧
    (doAsyncReadWrite zvSmall zvolHostOk IODirection.dirIn 2 1).volCalls =
      [] ∧
    (doAsyncReadWrite zvSmall zvolHostOk IODirection.dirIn 2 1).completions =
      [] :=
  doAsyncReadWrite_rejects_out_of_range zvSmall zvolHostOk IODirection.dirIn
    2 1 rfl rfl (by decide) (Or.inl (by decide))

/-- Claim C10: a read/write request that passes all the validation checks
always invokes the completion callback exactly once with kIOReturnSuccess
and the method returns kIOReturnSuccess, even when the volume read or write
fails; a failed transfer is visible only as an actual byte count of zero. -/
theorem doAsyncReadWrite_completes_success
    (st : ZvolState) (host : ZvolHost) (dir : IODirection) (block nblks : Nat)
    (hactive : st.isInactive = false) (hdn : st.hasDnode = true)
    (h1 : w64 (block * ZVOL_BSIZE) < st.zv_volsize)
    (h2 : w64 ((block + nblks) * ZVOL_BSIZE) ≤ st.zv_volsize)
    (hdir : dir = IODirection.dirIn ∨ dir = IODirection.dirOut) :
    (doAsyncReadWrite st host dir block nblks).ret = IOReturnCode.success ∧
    (doAsyncReadWrite st host dir block nblks).completions =
      [(IOReturnCode.success,
        if (if dir = IODirection.dirIn
            then host.readZv (w64 (block * ZVOL_BSIZE))
                   (w64 (nblks * ZVOL_BSIZE))
            else host.writeZv (w64 (block * ZVOL_BSIZE))
                   (w64 (nblks * ZVOL_BSIZE))) ≠ 0
        then 0 else w64 (nblks * ZVOL_BSIZE))] := by
  have hn1 : ¬ st.zv_volsize ≤ w64 (block * ZVOL_BSIZE) := not_le.mpr h1
  have hn2 : ¬ st.zv_volsize < w64 ((block + nblks) * ZVOL_BSIZE) :=
    not_lt.mpr h2
  rcases hdir with h | h <;> subst h <;>
    simp [doAsyncReadWrite, hactive, hdn, hn1, hn2]

/-- Witness for claim C10: an in-range read whose volume read fails still
completes once with kIOReturnSuccess and an actual byte count of zero. -/
theorem doAsyncReadWrite_completes_success_witness :
    (doAsyncReadWrite zvMeg zvolHostReadFail IODirection.dirIn 0 8).ret =
      IOReturnCode.success ∧
    (doAsyncReadWrite zvMeg zvolHostReadFail IODirection.dirIn 0 8).completions =
      [(IOReturnCode.success,
        if (if IODirection.dirIn = IODirection.dirIn
            then zvolHostReadFail.readZv (w64 (0 * ZVOL_BSIZE))
                   (w64 (8 * ZVOL_BSIZE))
            else zvolHostReadFail.writeZv (w64 (0 * ZVOL_BSIZE))
                   (w64 (8 * ZVOL_BSIZE))) ≠ 0
        then 0 else w64 (8 * ZVOL_BSIZE))] :=
  doAsyncReadWrite_completes_success zvMeg zvolHostReadFail IODirection.dirIn
    0 8 rfl rfl (by decide) (by decide) (Or.inl rfl)
